import Mathlib

/-!
Shallow embedding of `src/SideNav.ts` (single-spa/component-library).

The file models the two Lit components `SideNavElement` and
`SideNavSearchElement`: the data model (`Route`, `RouteTreeItem`), the
recursive tree rendering (`render`, `renderTreeItem`, `itemHiddenForSearch`),
the expansion-toggle handlers (`treeGroupToggle`, `onTreeGroupClick`,
`onTreeGroupKeyDown`), and the search pipeline (`onSearchChange` in the
search sub-component, `onSearch` in the side nav).

JavaScript runtime behaviour is made explicit:
* an out-of-bounds array read yields `undefined`, modelled by `Option`;
* reading a property of `undefined` throws a `TypeError`, modelled by
  `Except.error (RenderError.undefinedAccess field)`;
* optional chaining `x?.f` on `undefined` yields `undefined` instead of
  throwing, modelled by matching on the `Option`;
* `!undefined` is `true`; a string is truthy iff it is non-empty.
-/

namespace SideNav

/-- A navigable route. The TypeScript interface (in the `Routes` module)
declares `path` and `label` as strings, but the component reads the label
through optional chaining (`route.label?.includes`), so the embedding keeps
the label optional to cover records whose label is absent at runtime. -/
structure Route where
  path : String
  label : Option String
deriving Repr, DecidableEq

/-- A node of the route tree: either a GROUP with a label and children, or an
ITEM holding an index into the flat `routes` array
(`RouteTreeItemType.GROUP` / `RouteTreeItemType.ITEM` in the source). -/
inductive RouteTreeItem where
  | group (label : String) (children : List RouteTreeItem)
  | item (index : Nat)
deriving Repr

/-- A thrown `TypeError` from reading a property of an `undefined` value;
the argument records which property access failed. -/
inductive RenderError where
  | undefinedAccess (field : String)
deriving Repr, DecidableEq

/-- Rendered tree nodes (the `li` elements produced by `renderTreeItem`).
A group node carries the label span's static wiring from the template:
`tabindex="0"`, a `click` handler and a `keydown` handler, plus the initial
`aria-expanded` flag and the `ul role="group"` child container. A leaf node
is the anchor with its `href` and visible text. -/
inductive RenderedNode where
  | group (label : String) (ariaExpanded : Bool) (labelTabindex : Nat)
      (labelHasClick : Bool) (labelHasKeydown : Bool)
      (children : List RenderedNode)
  | leaf (href : String) (text : Option String)
deriving Repr

/-- Matching of a pattern at the head of a character list. -/
def matchHere : List Char → List Char → Bool
  | [], _ => true
  | _ :: _, [] => false
  | a :: as, b :: bs => a == b && matchHere as bs

/-- Matching of a pattern at some position of a character list. -/
def matchFrom (pat : List Char) : List Char → Bool
  | [] => matchHere pat []
  | c :: rest => matchHere pat (c :: rest) || matchFrom pat rest

/-- JavaScript `s.includes(pat)`: case-sensitive substring containment. -/
def strIncludes (s pat : String) : Bool :=
  matchFrom pat.data s.data

/-- The reactive inputs and state of `SideNavElement`: the `routes` and
`routeTree` properties, the `searchable` attribute and the internal
`searchString` state. -/
structure State where
  routes : List Route
  routeTree : List RouteTreeItem
  searchable : Bool
  searchString : String
deriving Repr

/-- The method `itemHiddenForSearch(route)`. The argument may be `undefined`
(when the caller's index was out of bounds). When `searchable` and the
search string are truthy the code evaluates `!route.label?.includes(str)`:
on an `undefined` route the access `route.label` throws; on a route with an
absent label the optional chain yields `undefined` and `!undefined` is
`true`; otherwise the label is searched for the string. -/
def itemHiddenForSearch (searchable : Bool) (searchString : String)
    (route : Option Route) : Except RenderError Bool :=
  if searchable && searchString != "" then
    match route with
    | none => .error (.undefinedAccess "label")
    | some r =>
      match r.label with
      | none => .ok true
      | some lbl => .ok (!(strIncludes lbl searchString))
  else
    .ok false

mutual

/-- The method `renderTreeItem(treeItem)`. A GROUP renders an expandable
`li` with `aria-expanded="false"`, the focusable label span wired to the
click and keydown handlers, and the child container holding the recursively
rendered children. An ITEM resolves `route := this.routes[treeItem.index]`
(read once, used by the guard and by the anchor), returns `null` (here
`none`) when `itemHiddenForSearch(route)` hides it, and otherwise renders
the anchor from `route.path` and `route.label`; a thrown `TypeError` from a
property read on an `undefined` route propagates out of the template. -/
def renderTreeItem (st : State) : RouteTreeItem →
    Except RenderError (Option RenderedNode)
  | .group label children =>
    match renderTreeItems st children with
    | .error e => .error e
    | .ok cs => .ok (some (.group label false 0 true true cs))
  | .item index =>
    match itemHiddenForSearch st.searchable st.searchString st.routes[index]? with
    | .error e => .error e
    | .ok true => .ok none
    | .ok false =>
      match st.routes[index]? with
      | none => .error (.undefinedAccess "path")
      | some r => .ok (some (.leaf r.path r.label))

/-- Rendering of a list of tree items (the `.map` in the templates): the
first thrown error propagates; `null` results of hidden leaves contribute
nothing to the rendered children. -/
def renderTreeItems (st : State) : List RouteTreeItem →
    Except RenderError (List RenderedNode)
  | [] => .ok []
  | t :: ts =>
    match renderTreeItem st t with
    | .error e => .error e
    | .ok none => renderTreeItems st ts
    | .ok (some n) =>
      match renderTreeItems st ts with
      | .error e => .error e
      | .ok rs => .ok (n :: rs)

end

/-- The output of `render()`: the search sub-component (carrying the
`hidden` class exactly when `searchable` is false, and wired to `onSearch`
via `@search`) and the `ul role="tree"` children. -/
structure RenderOutput where
  searchHiddenClass : Bool
  searchHandlerWired : Bool
  tree : List RenderedNode
deriving Repr

/-- The method `render()` of `SideNavElement`. -/
def render (st : State) : Except RenderError RenderOutput :=
  match renderTreeItems st st.routeTree with
  | .error e => .error e
  | .ok tree =>
    .ok { searchHiddenClass := !st.searchable, searchHandlerWired := true, tree := tree }

/-- State of the group `li` element under toggling: `none` is a null
element reference, `some a` an element whose `aria-expanded` attribute is
`a` (`none` when the attribute is absent). -/
abbrev ElAria := Option (Option String)

/-- The `aria-expanded` attribute value rendered for an expansion flag. -/
def ariaAttr (b : Bool) : Option String :=
  some (if b then "true" else "false")

/-- The method `treeGroupToggle(el)`: when the element exists and its
`ariaExpanded` is the string `"true"` it is set to `"false"`; otherwise
`el?.setAttribute("aria-expanded", "true")` sets it to `"true"` (a no-op
when `el` is null). -/
def treeGroupToggle : ElAria → ElAria
  | none => none
  | some a => if a == some "true" then some (some "false") else some (some "true")

/-- The handler `onTreeGroupClick`: toggles the label's parent element. -/
def onTreeGroupClick (el : ElAria) : ElAria :=
  treeGroupToggle el

/-- The handler `onTreeGroupKeyDown`: toggles the label's parent element
when the pressed key is `"Enter"` and does nothing otherwise. -/
def onTreeGroupKeyDown (key : String) (el : ElAria) : ElAria :=
  if key == "Enter" then treeGroupToggle el else el

/-- The event dispatched by the search sub-component: a
`CustomEvent("search", ...)` with its string `detail` payload and the
`bubbles` and `composed` flags of its init dictionary. -/
structure SearchCustomEvent where
  name : String
  detail : String
  bubbles : Bool
  composed : Bool
deriving Repr, DecidableEq

/-- The method `onSearchChange` of `SideNavSearchElement`: dispatches a
`CustomEvent("search", { detail: value, composed: true })` carrying the
input's current value. Per the `CustomEvent` constructor, an omitted
`bubbles` member defaults to `false`. -/
def onSearchChange (inputValue : String) : SearchCustomEvent :=
  { name := "search", detail := inputValue, bubbles := false, composed := true }

/-- DOM dispatch semantics for a listener attached to the SideNav element,
the shadow host of the tree in which the search sub-component dispatches
its event: when the event is composed its path crosses the shadow boundary
and is retargeted to the host, whose listeners are invoked in the
AT_TARGET phase regardless of `bubbles`; a non-composed event never leaves
the shadow tree. -/
def observableByListenerOnHost (e : SearchCustomEvent) : Bool :=
  e.composed

/-- The handler `onSearch` of `SideNavElement`: stores the event's `detail`
payload into the `searchString` state (the `console.info` logging has no
effect on state). -/
def onSearch (st : State) (e : SearchCustomEvent) : State :=
  { st with searchString := e.detail }

mutual

/-- A rendered node and its descendants all carry a collapsed
`aria-expanded` flag. -/
def allCollapsed : RenderedNode → Bool
  | .leaf _ _ => true
  | .group _ aria _ _ _ cs => !aria && allCollapsedList cs

/-- List version of `allCollapsed`. -/
def allCollapsedList : List RenderedNode → Bool
  | [] => true
  | n :: ns => allCollapsed n && allCollapsedList ns

end

mutual

/-- The caller contract of the spec: every ITEM index of the tree is in
bounds of `routes`. -/
def validTreeItem (routes : List Route) : RouteTreeItem → Bool
  | .group _ cs => validTreeItems routes cs
  | .item i => i < routes.length

/-- List version of `validTreeItem`. -/
def validTreeItems (routes : List Route) : List RouteTreeItem → Bool
  | [] => true
  | t :: ts => validTreeItem routes t && validTreeItems routes ts

end

/-- The demo routes of the spec's scenarios. -/
def demoRoutes : List Route :=
  [{ path := "/a", label := some "Alpha" }, { path := "/b", label := some "Beta" }]

/-- A searchable side nav over `demoRoutes` with active query `"Be"`. -/
def demoState : State :=
  { routes := demoRoutes, routeTree := [.item 0, .item 1],
    searchable := true, searchString := "Be" }

/-- A single route whose record lacks a label, under an active search. -/
def noLabelState : State :=
  { routes := [{ path := "/x", label := none }], routeTree := [.item 0],
    searchable := true, searchString := "q" }

/-! Helper lemmas shared by the claim theorems. -/

theorem itemHiddenForSearch_some_ok (sb : Bool) (ss : String) (r : Route) :
    ∃ b, itemHiddenForSearch sb ss (some r) = .ok b := by
  unfold itemHiddenForSearch
  split
  · cases hl : r.label with
    | none => exact ⟨true, by simp [hl]⟩
    | some lbl => exact ⟨!(strIncludes lbl ss), by simp [hl]⟩
  · exact ⟨false, rfl⟩

mutual

theorem validTreeItem_renders_ok (st : State) : (t : RouteTreeItem) →
    validTreeItem st.routes t = true → ∃ r, renderTreeItem st t = .ok r
  | .group label children, h => by
    have hc : validTreeItems st.routes children = true := by
      simpa [validTreeItem] using h
    obtain ⟨rs, hrs⟩ := validTreeItems_render_ok st children hc
    exact ⟨some (.group label false 0 true true rs), by simp [renderTreeItem, hrs]⟩
  | .item i, h => by
    have hi : i < st.routes.length := by simpa [validTreeItem] using h
    have hr : st.routes[i]? = some st.routes[i] := List.getElem?_eq_getElem hi
    obtain ⟨b, hb⟩ := itemHiddenForSearch_some_ok st.searchable st.searchString st.routes[i]
    cases b with
    | true => exact ⟨none, by simp [renderTreeItem, hr, hb]⟩
    | false =>
      exact ⟨some (.leaf st.routes[i].path st.routes[i].label),
        by simp [renderTreeItem, hr, hb]⟩

theorem validTreeItems_render_ok (st : State) : (ts : List RouteTreeItem) →
    validTreeItems st.routes ts = true → ∃ rs, renderTreeItems st ts = .ok rs
  | [], _ => ⟨[], rfl⟩
  | t :: ts, h => by
    have ht : validTreeItem st.routes t = true ∧ validTreeItems st.routes ts = true := by
      simpa [validTreeItems, Bool.and_eq_true] using h
    obtain ⟨r, hrt⟩ := validTreeItem_renders_ok st t ht.1
    obtain ⟨rs, hrs⟩ := validTreeItems_render_ok st ts ht.2
    cases r with
    | none => exact ⟨rs, by simp [renderTreeItems, hrt, hrs]⟩
    | some n => exact ⟨n :: rs, by simp [renderTreeItems, hrt, hrs]⟩

end

mutual

theorem renderTreeItem_collapsed (st : State) : (t : RouteTreeItem) →
    (n : RenderedNode) → renderTreeItem st t = .ok (some n) → allCollapsed n = true
  | .group label children, n, h => by
    cases hcs : renderTreeItems st children with
    | error e => simp [renderTreeItem, hcs] at h
    | ok cs =>
      have hlist := renderTreeItems_collapsed st children cs hcs
      simp only [renderTreeItem, hcs] at h
      obtain rfl : RenderedNode.group label false 0 true true cs = n := by
        simpa using h
      simp [allCollapsed, hlist]
  | .item i, n, h => by
    cases hhid : itemHiddenForSearch st.searchable st.searchString st.routes[i]? with
    | error e => simp [renderTreeItem, hhid] at h
    | ok b =>
      cases b with
      | true => simp [renderTreeItem, hhid] at h
      | false =>
        cases hr : st.routes[i]? with
        | none =>
          rw [hr] at hhid
          simp [renderTreeItem, hr, hhid] at h
        | some r =>
          rw [hr] at hhid
          simp only [renderTreeItem, hr, hhid] at h
          obtain rfl : RenderedNode.leaf r.path r.label = n := by simpa using h
          simp [allCollapsed]

theorem renderTreeItems_collapsed (st : State) : (ts : List RouteTreeItem) →
    (rs : List RenderedNode) → renderTreeItems st ts = .ok rs →
    allCollapsedList rs = true
  | [], rs, h => by
    obtain rfl : ([] : List RenderedNode) = rs := by simpa [renderTreeItems] using h
    rfl
  | t :: ts, rs, h => by
    cases hrt : renderTreeItem st t with
    | error e => simp [renderTreeItems, hrt] at h
    | ok r =>
      cases r with
      | none =>
        have := renderTreeItems_collapsed st ts rs (by simpa [renderTreeItems, hrt] using h)
        exact this
      | some n =>
        cases hrs : renderTreeItems st ts with
        | error e => simp [renderTreeItems, hrt, hrs] at h
        | ok rs0 =>
          have hn := renderTreeItem_collapsed st t n hrt
          have hrest := renderTreeItems_collapsed st ts rs0 hrs
          simp only [renderTreeItems, hrt, hrs] at h
          obtain rfl : n :: rs0 = rs := by simpa using h
          simp [allCollapsedList, hn, hrest]

end

/-- C1: an ITEM leaf resolving to route `r` with label `lbl` is hidden
(`renderTreeItem` returns `none`) iff `searchable` is true, `searchString`
is non-empty, and `lbl` does not contain `searchString` as a case-sensitive
substring; in every other case it renders as a link with `href = r.path`
and text `r.label`. -/
theorem item_leaf_hidden_iff_search_mismatch (st : State) (idx : Nat) (r : Route)
    (lbl : String) (hr : st.routes[idx]? = some r) (hl : r.label = some lbl) :
    renderTreeItem st (.item idx) =
      (if st.searchable = true ∧ st.searchString ≠ "" ∧
          strIncludes lbl st.searchString = false
       then Except.ok none
       else Except.ok (some (.leaf r.path (some lbl)))) := by
  by_cases hs : st.searchable = true
  · by_cases he : st.searchString = ""
    · simp [renderTreeItem, itemHiddenForSearch, hr, hl, hs, he]
    · by_cases hinc : strIncludes lbl st.searchString = true
      · simp [renderTreeItem, itemHiddenForSearch, hr, hl, hs, he, hinc]
      · simp [renderTreeItem, itemHiddenForSearch, hr, hl, hs, he, hinc]
  · simp [renderTreeItem, itemHiddenForSearch, hr, hl, hs]

/-- Witness for C1 at the spec scenario: under query `"Be"` the `"Alpha"`
leaf of `demoState` is hidden. -/
theorem item_leaf_hidden_iff_search_mismatch_witness :
    renderTreeItem demoState (.item 0) = Except.ok none := by
  rw [item_leaf_hidden_iff_search_mismatch demoState 0
    { path := "/a", label := some "Alpha" } "Alpha" rfl rfl]
  exact if_pos ⟨rfl, by decide, by decide⟩

/-- C2: a GROUP node renders with `aria-expanded="false"` (initially
collapsed); `treeGroupToggle` flips the expanded flag, so one toggle
expands an initially collapsed group and a second toggle collapses it
again. -/
theorem group_initial_collapsed_toggle_involution (st : State) (label : String)
    (children : List RouteTreeItem) (cs : List RenderedNode) (b : Bool)
    (h : renderTreeItems st children = .ok cs) :
    renderTreeItem st (.group label children) =
      .ok (some (.group label false 0 true true cs)) ∧
    treeGroupToggle (some (ariaAttr false)) = some (ariaAttr true) ∧
    treeGroupToggle (some (ariaAttr b)) = some (ariaAttr (!b)) ∧
    treeGroupToggle (treeGroupToggle (some (ariaAttr b))) = some (ariaAttr b) := by
  refine ⟨by simp [renderTreeItem, h], by decide, ?_, ?_⟩
  · cases b <;> decide
  · cases b <;> decide

/-- Witness for C2 at a concrete group with no children, toggled from the
expanded state. -/
theorem group_initial_collapsed_toggle_involution_witness :
    renderTreeItem demoState (.group "G" []) =
      .ok (some (.group "G" false 0 true true [])) ∧
    treeGroupToggle (some (ariaAttr false)) = some (ariaAttr true) ∧
    treeGroupToggle (some (ariaAttr true)) = some (ariaAttr (!true)) ∧
    treeGroupToggle (treeGroupToggle (some (ariaAttr true))) = some (ariaAttr true) :=
  group_initial_collapsed_toggle_involution demoState "G" [] [] true rfl

/-- C3: a GROUP node over in-bounds children always renders — with its
label, the wired toggle span and the child container — for every value of
`searchable` and `searchString`, even when search filters out every
descendant leaf. -/
theorem group_rendered_regardless_of_search (routes : List Route)
    (tree : List RouteTreeItem) (sb : Bool) (ss : String) (label : String)
    (children : List RouteTreeItem) (h : validTreeItems routes children = true) :
    ∃ cs, renderTreeItem ⟨routes, tree, sb, ss⟩ (.group label children) =
      .ok (some (.group label false 0 true true cs)) := by
  obtain ⟨cs, hcs⟩ := validTreeItems_render_ok ⟨routes, tree, sb, ss⟩ children h
  exact ⟨cs, by simp [renderTreeItem, hcs]⟩

/-- Witness for C3 at the spec scenario: the group `"G"` still renders when
the query `"zzz"` filters out its only leaf. -/
theorem group_rendered_regardless_of_search_witness :
    ∃ cs, renderTreeItem ⟨demoRoutes, [], true, "zzz"⟩ (.group "G" [.item 0]) =
      .ok (some (.group "G" false 0 true true cs)) :=
  group_rendered_regardless_of_search demoRoutes [] true "zzz" "G" [.item 0] (by decide)

/-- C4: every `"search"` event dispatched by the search sub-component
carries the input's current string value as its `detail` payload, and,
being created with `composed := true`, it crosses the shadow boundary and
is delivered — retargeted, in the AT_TARGET phase — to a listener attached
to the outer SideNav element. -/
theorem search_event_payload_observable_on_host (v : String) :
    (onSearchChange v).name = "search" ∧ (onSearchChange v).detail = v ∧
    (onSearchChange v).composed = true ∧
    observableByListenerOnHost (onSearchChange v) = true :=
  ⟨rfl, rfl, rfl, rfl⟩

/-- C5: an ITEM whose index is out of bounds of `routes` is not guarded:
no placeholder is rendered, and the leaf render raises a `TypeError` at
property access time (`route.label` inside the search predicate when a
search is active, `route.path` in the anchor otherwise). -/
theorem item_out_of_bounds_raises (st : State) (idx : Nat)
    (h : st.routes[idx]? = none) :
    renderTreeItem st (.item idx) =
      .error (.undefinedAccess
        (if st.searchable && st.searchString != "" then "label" else "path")) := by
  by_cases hg : (st.searchable && st.searchString != "") = true
  · simp [renderTreeItem, itemHiddenForSearch, h, hg]
  · simp [renderTreeItem, itemHiddenForSearch, h, hg]

/-- Witness for C5: index 7 is out of bounds of `demoRoutes`, and the
active `"Be"` search makes the predicate's label access raise. -/
theorem item_out_of_bounds_raises_witness :
    renderTreeItem demoState (.item 7) =
      .error (.undefinedAccess "label") := by
  simpa using item_out_of_bounds_raises demoState 7 rfl

/-- C6: a keydown whose key is not `"Enter"` leaves the group element
unchanged; a pointer click, or an `"Enter"` keydown, performs exactly the
toggle. -/
theorem non_enter_key_does_not_toggle (key : String) (el : ElAria)
    (h : key ≠ "Enter") :
    onTreeGroupKeyDown key el = el ∧
    onTreeGroupKeyDown "Enter" el = treeGroupToggle el ∧
    onTreeGroupClick el = treeGroupToggle el := by
  refine ⟨?_, rfl, rfl⟩
  simp [onTreeGroupKeyDown, h]

/-- Witness for C6: pressing `"Tab"` on a collapsed group changes
nothing. -/
theorem non_enter_key_does_not_toggle_witness :
    onTreeGroupKeyDown "Tab" (some (ariaAttr false)) = some (ariaAttr false) ∧
    onTreeGroupKeyDown "Enter" (some (ariaAttr false)) =
      treeGroupToggle (some (ariaAttr false)) ∧
    onTreeGroupClick (some (ariaAttr false)) = treeGroupToggle (some (ariaAttr false)) :=
  non_enter_key_does_not_toggle "Tab" (some (ariaAttr false)) (by decide)

/-- C7: a change of the search field with value `v` emits an event whose
payload is exactly `v`; `onSearch` stores that payload unchanged into
`searchString`, and the subsequent render filters against `v`. -/
theorem search_payload_stored_unchanged (st : State) (v : String) :
    (onSearchChange v).detail = v ∧
    (onSearch st (onSearchChange v)).searchString = v ∧
    ∀ t, renderTreeItem (onSearch st (onSearchChange v)) t =
      renderTreeItem { st with searchString := v } t :=
  ⟨rfl, rfl, fun _ => rfl⟩

/-- C8: rendering is deterministic in `routes`, `routeTree`, `searchable`
and `searchString` — two states agreeing on all four render identically —
and the rendered tree has every group in the collapsed state (expansion
being ephemeral and reset on remount). -/
theorem render_deterministic_and_collapsed (s t : State) (out : RenderOutput)
    (h1 : s.routes = t.routes) (h2 : s.routeTree = t.routeTree)
    (h3 : s.searchable = t.searchable) (h4 : s.searchString = t.searchString)
    (hout : render s = .ok out) :
    render s = render t ∧ allCollapsedList out.tree = true := by
  have hst : s = t := by
    cases s; cases t; simp_all
  subst hst
  refine ⟨rfl, ?_⟩
  cases hts : renderTreeItems s s.routeTree with
  | error e => simp [render, hts] at hout
  | ok tree =>
    have hcol := renderTreeItems_collapsed s s.routeTree tree hts
    have hout2 :
        ({ searchHiddenClass := !s.searchable,
           searchHandlerWired := true,
           tree := tree } : RenderOutput) = out := by
      simpa [render, hts] using hout
    subst hout2
    simpa using hcol

/-- Witness for C8 at `demoState`, whose render keeps only the Beta
leaf. -/
theorem render_deterministic_and_collapsed_witness :
    render demoState = render demoState ∧
    allCollapsedList
      (RenderOutput.mk false true [.leaf "/b" (some "Beta")]).tree = true :=
  render_deterministic_and_collapsed demoState demoState
    (RenderOutput.mk false true [.leaf "/b" (some "Beta")]) rfl rfl rfl rfl rfl

/-- C9: the component never mutates its caller-supplied inputs: `render`
and `renderTreeItem` are pure (they only produce output), and the single
state-updating handler `onSearch` leaves `routes` and `routeTree` — and
the `searchable` flag — unchanged, element for element. -/
theorem handlers_preserve_routes_and_tree (st : State) (e : SearchCustomEvent) :
    (onSearch st e).routes = st.routes ∧
    (onSearch st e).routeTree = st.routeTree ∧
    (onSearch st e).searchable = st.searchable :=
  ⟨rfl, rfl, rfl⟩

/-- C10: an ITEM resolving to a route whose label is absent is treated as
non-matching by `itemHiddenForSearch` — the optional-chained label access
yields no string, so the predicate returns `true` (no error) under every
active search, and the leaf is hidden. -/
theorem missing_label_hidden_under_active_search (st : State) (idx : Nat) (r : Route)
    (hs : st.searchable = true) (hne : st.searchString ≠ "")
    (hr : st.routes[idx]? = some r) (hl : r.label = none) :
    itemHiddenForSearch st.searchable st.searchString (some r) = .ok true ∧
    renderTreeItem st (.item idx) = .ok none := by
  have hguard : (st.searchable && st.searchString != "") = true := by
    simp [hs, hne]
  have h1 : itemHiddenForSearch st.searchable st.searchString (some r) = .ok true := by
    simp [itemHiddenForSearch, hguard, hl]
  exact ⟨h1, by simp [renderTreeItem, hr, h1]⟩

/-- Witness for C10: the label-less `/x` route of `noLabelState` is hidden
under the active query `"q"`. -/
theorem missing_label_hidden_under_active_search_witness :
    itemHiddenForSearch noLabelState.searchable noLabelState.searchString
      (some { path := "/x", label := none }) = .ok true ∧
    renderTreeItem noLabelState (.item 0) = .ok none :=
  missing_label_hidden_under_active_search noLabelState 0
    { path := "/x", label := none } rfl (by decide) rfl rfl

end SideNav
